import Mathlib

/-!
Verification of pydatapipes (src/pydatapipes/pipes.py).

Shallow embedding conventions:

* Python values of the piped data are an abstract type `V`; results of calls are an
  abstract type `ρ` (instantiated with an `Except` type when failure propagation is
  at stake); runtime type tags are an abstract type `τ` with decidable equality,
  together with a typing function `tyOf : V → τ` modelling Python's `type(...)`.
* Keyword arguments are association lists from names to values; positional
  arguments are lists.
* `functools.singledispatch` and `functools.wraps` are external platform
  collaborators of pipes.py (imported on lines 5-12).  They are modelled from
  their documented contract, which spec section 4.3 restates: a dispatcher keeps a
  default implementation plus a per-type registry where later registrations for
  the same type win, dispatches on the runtime type of the first argument,
  and carries over the default implementation's name and doc; `wraps` copies
  name and doc onto the decorated callable.  The registry lookup here is
  exact-type lookup (no subclass resolution), which suffices for the distinct
  concrete types the spec's properties quantify over.
* Mutation of a class's attributes by `make_pipesource` and the mutation of the
  shared dispatch registry by `register` are rendered as explicit state passing:
  a `Cls` value is a class's operator-relevant attribute state, and
  `make_pipesource` / `register` return the updated state.
* Python's evaluation of `a >> b` is `pyRshift`, following the binary-operator
  protocol: call the class's `__rshift__` when present; when it is absent, or
  when it returns the `NotImplemented` sentinel (`OpResult.notImplemented`),
  fall back to the right operand's reflected `__rrshift__` hook, which
  `PipeVerb` defines (pipes.py lines 40-41) and plain right operands are
  modelled without.  An exception raised by the class's operator propagates
  with no fallback.
-/

namespace PyDataPipes

/-- Keyword arguments: an association list from keyword names to values. -/
abbrev KwDict (V : Type) := List (String × V)

/-- A raw subject-first callable body: subject, positional args, keyword args. -/
abbrev RawFunc (V ρ : Type) := V → List V → KwDict V → ρ

/-- A plain Python function object: a callable body plus name/doc metadata. -/
structure PlainFunc (V ρ : Type) where
  call : RawFunc V ρ
  name : String
  doc : Option String

/-- State of a functools.singledispatch wrapper (external collaborator of
pipes.py, contract per spec section 4.3): the default generic implementation,
the per-type registry, and the metadata copied from the generic function. -/
structure Dispatcher (V ρ τ : Type) where
  defaultCall : RawFunc V ρ
  registry : List (τ × RawFunc V ρ)
  name : String
  doc : Option String

/-- The register capability of a dispatcher: associate an implementation with a
type tag.  The new entry is consulted first, so a later registration for the
same type wins, matching dict-assignment semantics of the registry. -/
def Dispatcher.register {V ρ τ : Type} (d : Dispatcher V ρ τ) (c : τ)
    (impl : RawFunc V ρ) : Dispatcher V ρ τ :=
  { d with registry := (c, impl) :: d.registry }

/-- Exact-type lookup in the dispatch registry, first match wins. -/
def regLookup {V ρ τ : Type} [DecidableEq τ] (t : τ) :
    List (τ × RawFunc V ρ) → Option (RawFunc V ρ)
  | [] => none
  | (c, impl) :: rest => if t = c then some impl else regLookup t rest

/-- Calling a dispatcher: dispatch on the runtime type of the subject, falling
back to the default generic implementation for unregistered types. -/
def Dispatcher.dispatch {V ρ τ : Type} [DecidableEq τ] (tyOf : V → τ)
    (d : Dispatcher V ρ τ) : RawFunc V ρ :=
  fun subject args kwargs =>
    match regLookup (tyOf subject) d.registry with
    | some impl => impl subject args kwargs
    | none => d.defaultCall subject args kwargs

/-- A Python function as seen by pipeverb: either a plain function or a
singledispatch-wrapped function (the latter exposes a register attribute,
so that hasattr func register holds exactly for it). -/
inductive PyFunc (V ρ τ : Type) where
  | plain (f : PlainFunc V ρ)
  | dispatch (d : Dispatcher V ρ τ)

/-- functools.singledispatch applied to a generic function (pipes.py line 7
imports it; contract per spec section 4.3): fresh empty registry, the given
function as default, metadata copied from it. -/
def singledispatch {V ρ τ : Type} (f : PlainFunc V ρ) : PyFunc V ρ τ :=
  .dispatch { defaultCall := f.call, registry := [], name := f.name, doc := f.doc }

/-- Calling a Python function object. -/
def PyFunc.call {V ρ τ : Type} [DecidableEq τ] (tyOf : V → τ) :
    PyFunc V ρ τ → RawFunc V ρ
  | .plain f => f.call
  | .dispatch d => d.dispatch tyOf

/-- The name attribute of a function object. -/
def PyFunc.name {V ρ τ : Type} : PyFunc V ρ τ → String
  | .plain f => f.name
  | .dispatch d => d.name

/-- The doc attribute of a function object. -/
def PyFunc.doc {V ρ τ : Type} : PyFunc V ρ τ → Option String
  | .plain f => f.doc
  | .dispatch d => d.doc

/-- Whether the function exposes a register capability
(hasattr func register, pipes.py line 104). -/
def PyFunc.hasRegister {V ρ τ : Type} : PyFunc V ρ τ → Bool
  | .plain _ => false
  | .dispatch _ => true

/-- Registering a per-type implementation on a function object; none when the
function has no register capability (AttributeError in Python). -/
def PyFunc.register {V ρ τ : Type} :
    PyFunc V ρ τ → τ → RawFunc V ρ → Option (PyFunc V ρ τ)
  | .plain _, _, _ => none
  | .dispatch d, c, impl => some (.dispatch (d.register c impl))

/-- PipeVerb (pipes.py lines 17-41): stores the function and the captured
positional and keyword arguments verbatim. -/
structure PipeVerb (V ρ τ : Type) where
  pipe_func : PyFunc V ρ τ
  args : List V
  kwargs : KwDict V

/-- PipeVerb.__rrshift__ (pipes.py lines 40-41): call the stored function with
the subject prepended as first positional argument, then the captured
positional arguments, then the captured keyword arguments. -/
def PipeVerb.rrshift {V ρ τ : Type} [DecidableEq τ] (tyOf : V → τ)
    (pv : PipeVerb V ρ τ) (input : V) : ρ :=
  pv.pipe_func.call tyOf input pv.args pv.kwargs

/-- The verb factory returned by pipeverb (pipes.py lines 100-107): the
decorated closure keeps a reference to func (used both as the PipeVerb target
and, through the copied register attribute, as the shared dispatch state), and
functools.wraps copies func's name and doc onto it. -/
structure VerbFactory (V ρ τ : Type) where
  func : PyFunc V ρ τ
  name : String
  doc : Option String

/-- pipeverb (pipes.py lines 44-107): wrap func into a verb factory carrying
func's metadata; the register capability, when func has one, stays the one of
func itself (line 105 sets decorated.register to func.register). -/
def pipeverb {V ρ τ : Type} (func : PyFunc V ρ τ) : VerbFactory V ρ τ :=
  { func := func, name := func.name, doc := func.doc }

/-- Calling the verb factory (pipes.py lines 100-102): build a PipeVerb around
func and the given arguments. -/
def VerbFactory.call {V ρ τ : Type} (vf : VerbFactory V ρ τ) (args : List V)
    (kwargs : KwDict V) : PipeVerb V ρ τ :=
  { pipe_func := vf.func, args := args, kwargs := kwargs }

/-- Whether the verb factory exposes a register capability (it does exactly
when the wrapped func does, pipes.py lines 104-105). -/
def VerbFactory.hasRegister {V ρ τ : Type} (vf : VerbFactory V ρ τ) : Bool :=
  vf.func.hasRegister

/-- Registering through the verb factory: the factory's register attribute is
func's own register (pipes.py line 105), so the effect is an update of the
shared dispatch state closed over by the factory. -/
def VerbFactory.register {V ρ τ : Type} (vf : VerbFactory V ρ τ) (c : τ)
    (impl : RawFunc V ρ) : Option (VerbFactory V ρ τ) :=
  (vf.func.register c impl).map (fun f => { vf with func := f })

/-- singledispatch_pipeverb (pipes.py lines 144-175):
pipeverb (singledispatch func), nothing else. -/
def singledispatch_pipeverb {V ρ τ : Type} (func : PlainFunc V ρ) :
    VerbFactory V ρ τ :=
  pipeverb (singledispatch func)

/-- A right-hand operand of the shift operator: either a plain value or a
PipeVerb instance (the isinstance test on pipes.py line 131 distinguishes
exactly these two cases). -/
inductive RVal (V ρ τ : Type) where
  | plain (v : V)
  | verb (pv : PipeVerb V ρ τ)

/-- The outcome of one invocation of a user-defined binary-operator method:
either a proper value, or the NotImplemented sentinel by which the method
declines the operand, telling the operator protocol to try the reflected
hook of the other operand. -/
inductive OpResult (ρ : Type) where
  | value (r : ρ)
  | notImplemented

/-- The body of a class's shift operator method: either an original
user-defined implementation (which may decline an operand by returning the
NotImplemented sentinel, as int's does for a PipeVerb on the right), or the
wrapper installed by make_pipesource (pipes.py lines 129-134). -/
inductive RshiftImpl (V ρ τ : Type) where
  | orig (f : V → RVal V ρ τ → OpResult ρ)
  | wrapper

/-- A method object: its body, its pipeoperator marker attribute
(getattr with default False, pipes.py line 128), and its doc. -/
structure Method (V ρ τ : Type) where
  impl : RshiftImpl V ρ τ
  pipeoperator : Bool
  doc : Option String

/-- The operator-relevant attribute state of a class: its shift operator
method, when defined, and its saved original under the fixed alternate
name (pipes.py line 136), when present. -/
structure Cls (V ρ τ : Type) where
  rshift : Option (Method V ρ τ)
  orig_rshift : Option (Method V ρ τ)

/-- The wrapper method installed by make_pipesource (pipes.py lines 129-142):
its marker attribute is set and it carries the wrapper's docstring. -/
def wrapperMethod {V ρ τ : Type} : Method V ρ τ :=
  { impl := .wrapper, pipeoperator := true,
    doc := some "Pipeline operator if the right side is a PipeVerb" }

/-- make_pipesource (pipes.py lines 110-142): when the class defines a shift
operator whose marker attribute is not set, save that method under the
alternate name, install the wrapper, and set the marker on it; otherwise leave
the class untouched. -/
def make_pipesource {V ρ τ : Type} (cls : Cls V ρ τ) : Cls V ρ τ :=
  match cls.rshift with
  | none => cls
  | some m =>
    if m.pipeoperator then cls
    else { rshift := some wrapperMethod, orig_rshift := some m }

/-- Invoking a class's shift operator method on an instance, yielding the
method's outcome (a value or the NotImplemented sentinel).  The wrapper body
(pipes.py lines 129-134): when the right side is a PipeVerb, delegate to its
reflected hook with the instance as subject; otherwise call the saved original
through the alternate-name attribute and return its outcome unchanged,
sentinel included.  A missing saved original, or a saved original that is
itself the wrapper, yields none (failure): make_pipesource never produces
such a class, since it only saves a method whose marker is unset and always
marks the wrapper. -/
def callMethod {V ρ τ : Type} [DecidableEq τ] (tyOf : V → τ) (cls : Cls V ρ τ)
    (m : Method V ρ τ) (self : V) (other : RVal V ρ τ) : Option (OpResult ρ) :=
  match m.impl with
  | .orig f => some (f self other)
  | .wrapper =>
    match other with
    | .verb pv => some (.value (pv.rrshift tyOf self))
    | .plain _ =>
      match cls.orig_rshift with
      | some m2 =>
        match m2.impl with
        | .orig f => some (f self other)
        | .wrapper => none
      | none => none

/-- Python's evaluation of a shift expression over an instance of the given
class, per the binary-operator protocol: call the class's operator method when
the class defines one; when its outcome is the NotImplemented sentinel, or
the class defines no operator at all, fall back to the right operand's
reflected hook, which PipeVerb defines (pipes.py lines 40-41) and plain
values are modelled without.  An error raised inside the method propagates
with no fallback.  none models the expression failing with a platform error
rather than producing a value. -/
def pyRshift {V ρ τ : Type} [DecidableEq τ] (tyOf : V → τ) (cls : Cls V ρ τ)
    (self : V) (other : RVal V ρ τ) : Option ρ :=
  match cls.rshift with
  | some m =>
    match callMethod tyOf cls m self other with
    | some (OpResult.value r) => some r
    | some OpResult.notImplemented =>
      match other with
      | .verb pv => some (pv.rrshift tyOf self)
      | .plain _ => none
    | none => none
  | none =>
    match other with
    | .verb pv => some (pv.rrshift tyOf self)
    | .plain _ => none

/-- A class that defines no shift operator at all (such as list). -/
def bareCls {V ρ τ : Type} : Cls V ρ τ :=
  { rshift := none, orig_rshift := none }

/-- C1: for every function f, every subject, every tuple of positional
arguments and every mapping of keyword arguments, evaluating
subject >> pipeverb(f)(args, kwargs) returns exactly f(subject, args, kwargs):
the deferred operation calls the stored function with the subject prepended as
first positional argument, then the captured positional arguments, then the
captured keyword arguments.  Stated for the shift expression on both pipe
paths — a subject whose class defines no shift operator (the reflected hook)
and a subject of a pipe-enabled class — and for the deferred operation's
apply-to-subject operation itself. -/
theorem c1_pipe_applies_stored_function {V ρ τ : Type} [DecidableEq τ]
    (tyOf : V → τ) (f : PyFunc V ρ τ) (args : List V) (kwargs : KwDict V)
    (subject : V) (g : V → RVal V ρ τ → OpResult ρ) (d : Option String)
    (o : Option (Method V ρ τ)) :
    ((pipeverb f).call args kwargs).rrshift tyOf subject
      = f.call tyOf subject args kwargs ∧
    pyRshift tyOf bareCls subject (RVal.verb ((pipeverb f).call args kwargs))
      = some (f.call tyOf subject args kwargs) ∧
    pyRshift tyOf
        (make_pipesource (Cls.mk (some (Method.mk (RshiftImpl.orig g) false d)) o))
        subject (RVal.verb ((pipeverb f).call args kwargs))
      = some (f.call tyOf subject args kwargs) :=
  ⟨rfl, rfl, rfl⟩

/-- C1 witness: the pipe expression over a concrete addition verb. -/
theorem c1_witness :
    ((pipeverb (PyFunc.plain (PlainFunc.mk
          (fun s args _ => s + args.foldr (fun a b => a + b) 0) "add" none))).call
        [2, 3] []).rrshift (fun _ : Nat => (0 : Nat)) 1 = 6 :=
  (c1_pipe_applies_stored_function (fun _ : Nat => (0 : Nat))
    (PyFunc.plain (PlainFunc.mk
      (fun s args _ => s + args.foldr (fun a b => a + b) 0) "add" none))
    [2, 3] [] 1 (fun s _ => OpResult.value s) none none).1

/-- C2: make_pipesource is idempotent: on a class whose shift operator is an
implementation not yet bearing the marker, a second call is a no-op — the
class state after two calls equals the state after one, and the saved
original after both one and two calls is the very method that was installed
before enablement, not a re-saved copy of the wrapper. -/
theorem c2_make_pipesource_idempotent {V ρ τ : Type} (m : Method V ρ τ)
    (o : Option (Method V ρ τ)) (h : m.pipeoperator = false) :
    make_pipesource (make_pipesource (Cls.mk (some m) o))
      = make_pipesource (Cls.mk (some m) o) ∧
    (make_pipesource (make_pipesource (Cls.mk (some m) o))).orig_rshift = some m ∧
    (make_pipesource (Cls.mk (some m) o)).orig_rshift = some m := by
  simp [make_pipesource, wrapperMethod, h]

/-- C2 witness: idempotence at a concrete class. -/
theorem c2_witness :
    make_pipesource (make_pipesource (Cls.mk (V := Nat) (ρ := Nat) (τ := Nat)
        (some (Method.mk (RshiftImpl.orig (fun s _ => OpResult.value s)) false none)) none))
      = make_pipesource (Cls.mk
        (some (Method.mk (RshiftImpl.orig (fun s _ => OpResult.value s)) false none)) none) ∧
    (make_pipesource (make_pipesource (Cls.mk (V := Nat) (ρ := Nat) (τ := Nat)
        (some (Method.mk (RshiftImpl.orig (fun s _ => OpResult.value s)) false none)) none))).orig_rshift
      = some (Method.mk (RshiftImpl.orig (fun s _ => OpResult.value s)) false none) ∧
    (make_pipesource (Cls.mk (V := Nat) (ρ := Nat) (τ := Nat)
        (some (Method.mk (RshiftImpl.orig (fun s _ => OpResult.value s)) false none)) none)).orig_rshift
      = some (Method.mk (RshiftImpl.orig (fun s _ => OpResult.value s)) false none) :=
  c2_make_pipesource_idempotent
    (Method.mk (RshiftImpl.orig (fun s _ => OpResult.value s)) false none) none rfl

/-- C3: enablement preserves the operator for all non-deferred right-hand
operands: for every class whose shift operator is an original implementation
and every plain (non-PipeVerb) operand, the shift expression after
make_pipesource returns the same result as before, whatever the marker,
doc and saved-original state of the class. -/
theorem c3_non_verb_operands_preserved {V ρ τ : Type} [DecidableEq τ]
    (tyOf : V → τ) (f : V → RVal V ρ τ → OpResult ρ) (p : Bool) (d : Option String)
    (o : Option (Method V ρ τ)) (self v : V) :
    pyRshift tyOf
        (make_pipesource (Cls.mk (some (Method.mk (RshiftImpl.orig f) p d)) o))
        self (RVal.plain v)
      = pyRshift tyOf (Cls.mk (some (Method.mk (RshiftImpl.orig f) p d)) o)
          self (RVal.plain v) := by
  cases p <;>
    simp [make_pipesource, pyRshift, callMethod, wrapperMethod]

/-- C3 witness: a concrete class keeps its original operator behaviour on a
plain operand after enablement. -/
theorem c3_witness :
    pyRshift (fun _ : Nat => (0 : Nat))
        (make_pipesource (Cls.mk
          (some (Method.mk (RshiftImpl.orig (fun s (_ : RVal Nat Nat Nat) => OpResult.value (s + 100))) false none)) none))
        7 (RVal.plain 5)
      = pyRshift (fun _ : Nat => (0 : Nat))
          (Cls.mk (some (Method.mk (RshiftImpl.orig (fun s (_ : RVal Nat Nat Nat) => OpResult.value (s + 100))) false none)) none)
          7 (RVal.plain 5) :=
  c3_non_verb_operands_preserved (fun _ : Nat => (0 : Nat))
    (fun s _ => OpResult.value (s + 100)) false none none 7 5

/-- C4: the framework raises no errors of its own: when the wrapped function
produces a failure on a subject, the pipe expression yields exactly that
failure, and what the pipe expression yields is the very result of calling
the function directly with that subject and those arguments. -/
theorem c4_error_propagation {V E τ : Type} [DecidableEq τ] (tyOf : V → τ)
    (f : PyFunc V (Except E V) τ) (args : List V) (kwargs : KwDict V)
    (subject : V) (e : E)
    (h : f.call tyOf subject args kwargs = Except.error e) :
    pyRshift tyOf bareCls subject (RVal.verb ((pipeverb f).call args kwargs))
      = some (Except.error e) ∧
    ((pipeverb f).call args kwargs).rrshift tyOf subject
      = f.call tyOf subject args kwargs := by
  constructor
  · show some (f.call tyOf subject args kwargs) = _
    rw [h]
  · rfl

/-- C4 witness: a default implementation that always fails propagates its
failure through the pipe expression unchanged. -/
theorem c4_witness :
    pyRshift (fun _ : Nat => (0 : Nat)) bareCls 1
        (RVal.verb ((pipeverb (PyFunc.plain (PlainFunc.mk
            (fun _ _ _ => (Except.error "not implemented" : Except String Nat))
            "append" none))).call [] []))
      = some (Except.error "not implemented") :=
  (c4_error_propagation (fun _ : Nat => (0 : Nat))
    (PyFunc.plain (PlainFunc.mk
      (fun _ _ _ => (Except.error "not implemented" : Except String Nat))
      "append" none))
    [] [] 1 "not implemented" rfl).1

/-- C5: metadata preservation: the verb factory carries the same name and doc
as the wrapped function; a dispatch-wrapped function carries the doc of its
generic default implementation; and registering a per-type implementation
never changes the dispatcher's exposed doc, so the doc is the default's both
before and after any number of registrations. -/
theorem c5_metadata_preservation {V ρ τ : Type} (f : PyFunc V ρ τ)
    (g : PlainFunc V ρ) (d0 : Dispatcher V ρ τ) (c : τ) (impl : RawFunc V ρ) :
    (pipeverb f).name = f.name ∧
    (pipeverb f).doc = f.doc ∧
    (singledispatch g : PyFunc V ρ τ).doc = g.doc ∧
    (singledispatch g : PyFunc V ρ τ).name = g.name ∧
    (d0.register c impl).doc = d0.doc :=
  ⟨rfl, rfl, rfl, rfl, rfl⟩

/-- C5 witness: metadata of a concrete dispatch-wrapped verb before and after
a registration. -/
theorem c5_witness :
    (pipeverb (singledispatch (PlainFunc.mk (fun (s : Nat) _ _ => s) "append"
        (some "Docstring generic")) : PyFunc Nat Nat Nat)).doc
      = some "Docstring generic" ∧
    ((singledispatch (PlainFunc.mk (fun (s : Nat) _ _ => s) "append"
        (some "Docstring generic")) : PyFunc Nat Nat Nat)).doc
      = some "Docstring generic" :=
  ⟨(c5_metadata_preservation
      (singledispatch (PlainFunc.mk (fun (s : Nat) _ _ => s) "append"
        (some "Docstring generic")) : PyFunc Nat Nat Nat)
      (PlainFunc.mk (fun (s : Nat) _ _ => s) "append" (some "Docstring generic"))
      (Dispatcher.mk (fun s _ _ => s) [] "append" (some "Docstring generic"))
      0 (fun s _ _ => s)).2.1,
   (c5_metadata_preservation
      (singledispatch (PlainFunc.mk (fun (s : Nat) _ _ => s) "append"
        (some "Docstring generic")) : PyFunc Nat Nat Nat)
      (PlainFunc.mk (fun (s : Nat) _ _ => s) "append" (some "Docstring generic"))
      (Dispatcher.mk (fun s _ _ => s) [] "append" (some "Docstring generic"))
      0 (fun s _ _ => s)).2.2.1⟩

/-- C6: the register capability of a dispatch-wrapped function is re-exposed
identically on the verb factory, with the same underlying registry: the
factory has a register capability exactly when the function does, registering
through the function and then wrapping equals wrapping and then registering
through the factory, and the dispatch result of a subsequently piped subject
equals calling the registered function directly. -/
theorem c6_register_reexposed {V ρ τ : Type} [DecidableEq τ] (tyOf : V → τ)
    (f : PyFunc V ρ τ) (c : τ) (impl : RawFunc V ρ) (args : List V)
    (kwargs : KwDict V) (subject : V) :
    (pipeverb f).hasRegister = f.hasRegister ∧
    (pipeverb f).register c impl = (f.register c impl).map pipeverb ∧
    ((pipeverb f).register c impl).map
        (fun vf => (vf.call args kwargs).rrshift tyOf subject)
      = (f.register c impl).map
        (fun f2 => f2.call tyOf subject args kwargs) := by
  refine ⟨rfl, ?_, ?_⟩ <;> cases f <;> rfl

/-- C6 witness: registration before and after wrapping a concrete dispatcher
commute. -/
theorem c6_witness :
    (pipeverb (singledispatch (PlainFunc.mk (fun (s : Nat) _ _ => s)
          "append" none) : PyFunc Nat Nat Nat)).register 0 (fun s _ _ => s + 1)
      = ((singledispatch (PlainFunc.mk (fun (s : Nat) _ _ => s)
          "append" none) : PyFunc Nat Nat Nat).register 0
            (fun s _ _ => s + 1)).map pipeverb :=
  (c6_register_reexposed (fun v : Nat => v)
    (singledispatch (PlainFunc.mk (fun (s : Nat) _ _ => s) "append" none))
    0 (fun s _ _ => s + 1) [] [] 0).2.1

/-- C7: singledispatch_pipeverb is the composition of singledispatch and
pipeverb with no independent logic: the two verb factories have the same
deferred-application results on every subject and argument tuple, the same
name and doc metadata, the same register capability and register results,
and the composite always carries the register capability. -/
theorem c7_composition {V ρ τ : Type} [DecidableEq τ] (tyOf : V → τ)
    (f : PlainFunc V ρ) (args : List V) (kwargs : KwDict V) (subject : V)
    (c : τ) (impl : RawFunc V ρ) :
    ((singledispatch_pipeverb f : VerbFactory V ρ τ).call args kwargs).rrshift
        tyOf subject
      = ((pipeverb (singledispatch f : PyFunc V ρ τ)).call args kwargs).rrshift
          tyOf subject ∧
    (singledispatch_pipeverb f : VerbFactory V ρ τ).name
      = (pipeverb (singledispatch f : PyFunc V ρ τ)).name ∧
    (singledispatch_pipeverb f : VerbFactory V ρ τ).doc
      = (pipeverb (singledispatch f : PyFunc V ρ τ)).doc ∧
    (singledispatch_pipeverb f : VerbFactory V ρ τ).register c impl
      = (pipeverb (singledispatch f : PyFunc V ρ τ)).register c impl ∧
    (singledispatch_pipeverb f : VerbFactory V ρ τ).hasRegister = true :=
  ⟨rfl, rfl, rfl, rfl, rfl⟩

/-- C7 witness: the composite verb factory applied at a concrete verb and
subject agrees with the explicit composition. -/
theorem c7_witness :
    ((singledispatch_pipeverb (PlainFunc.mk (fun (s : Nat) _ _ => s + 1)
          "inc" none) : VerbFactory Nat Nat Nat).call [] []).rrshift
        (fun v : Nat => v) 4
      = ((pipeverb (singledispatch (PlainFunc.mk (fun (s : Nat) _ _ => s + 1)
          "inc" none) : PyFunc Nat Nat Nat)).call [] []).rrshift
        (fun v : Nat => v) 4 :=
  (c7_composition (fun v : Nat => v)
    (PlainFunc.mk (fun (s : Nat) _ _ => s + 1) "inc" none) [] [] 4 0
    (fun s _ _ => s)).1

/-- Exact-type lookup finds the entry for its own key at the head. -/
theorem regLookup_cons_self {V ρ τ : Type} [DecidableEq τ] (t : τ)
    (i : RawFunc V ρ) (rest : List (τ × RawFunc V ρ)) :
    regLookup t ((t, i) :: rest) = some i := by
  simp [regLookup]

/-- Exact-type lookup skips an entry with a different key. -/
theorem regLookup_cons_ne {V ρ τ : Type} [DecidableEq τ] {t c : τ}
    (h : t ≠ c) (i : RawFunc V ρ) (rest : List (τ × RawFunc V ρ)) :
    regLookup t ((c, i) :: rest) = regLookup t rest := by
  simp [regLookup, h]

/-- C8: registration order independence: for distinct types A and B,
registering an implementation for A then one for B yields the same dispatch
result as registering in the opposite order, for every subject whose runtime
type is A or B and every argument tuple. -/
theorem c8_registration_order_independent {V ρ τ : Type} [DecidableEq τ]
    (tyOf : V → τ) (d : Dispatcher V ρ τ) (A B : τ) (iA iB : RawFunc V ρ)
    (hAB : A ≠ B) (subject : V) (hs : tyOf subject = A ∨ tyOf subject = B)
    (args : List V) (kwargs : KwDict V) :
    ((d.register A iA).register B iB).dispatch tyOf subject args kwargs
      = ((d.register B iB).register A iA).dispatch tyOf subject args kwargs := by
  rcases hs with h | h <;>
    rw [Dispatcher.dispatch, Dispatcher.dispatch] <;>
    simp only [Dispatcher.register, h]
  · rw [regLookup_cons_ne hAB, regLookup_cons_self, regLookup_cons_self]
  · rw [regLookup_cons_self, regLookup_cons_ne hAB.symm, regLookup_cons_self]

/-- C8 witness: two concrete registrations in either order dispatch a subject
of the first type identically. -/
theorem c8_witness :
    (((Dispatcher.mk (fun (s : Nat) _ _ => s) [] "v" none).register 0
          (fun s _ _ => s + 10)).register 1 (fun s _ _ => s + 20)).dispatch
        (fun v : Nat => v) 0 [] []
      = (((Dispatcher.mk (fun (s : Nat) _ _ => s) [] "v" none).register 1
          (fun s _ _ => s + 20)).register 0 (fun s _ _ => s + 10)).dispatch
        (fun v : Nat => v) 0 [] [] :=
  c8_registration_order_independent (fun v : Nat => v)
    (Dispatcher.mk (fun (s : Nat) _ _ => s) [] "v" none) 0 1
    (fun s _ _ => s + 10) (fun s _ _ => s + 20) (by decide) 0 (Or.inl rfl) [] []

/-- C9 counterexample: the claim that a class defining its own shift operator
and never enabled resolves a shift expression with a deferred operation on
the right entirely through its own operator is false.  An int-like class
whose own operator handles plain operands (as a left shift) but declines a
PipeVerb with the NotImplemented sentinel: piping the never-enabled instance
1 into an append verb whose default implementation fails yields exactly the
deferred operation's result — the failure of the default implementation —
through the operand's reflected hook, not a result of the class's own
operator, which returned the sentinel.  This is the situation of
test_pipes.py lines 45-49, where 1 >> append() raises NotImplementedError
from the verb although int defines the shift operator and was never passed
to make_pipesource. -/
theorem c9_counterexample :
    pyRshift (fun _ : Nat => (0 : Nat))
        (Cls.mk (some (Method.mk (RshiftImpl.orig (fun s other =>
            match other with
            | RVal.plain v => OpResult.value (Except.ok (s * 2 ^ v))
            | RVal.verb _ => OpResult.notImplemented)) false none)) none)
        1
        (RVal.verb ((pipeverb (PyFunc.plain (PlainFunc.mk
            (fun _ _ _ => (Except.error "not implemented" : Except String Nat))
            "append" none))).call [] []))
      = some (Except.error "not implemented") ∧
    ((pipeverb (PyFunc.plain (PlainFunc.mk
        (fun _ _ _ => (Except.error "not implemented" : Except String Nat))
        "append" none))).call [] []).rrshift (fun _ : Nat => (0 : Nat)) 1
      = Except.error "not implemented" ∧
    (fun (s : Nat) (other : RVal Nat (Except String Nat) Nat) =>
        match other with
        | RVal.plain v => OpResult.value (Except.ok (s * 2 ^ v) : Except String Nat)
        | RVal.verb _ => OpResult.notImplemented) 1
      (RVal.verb ((pipeverb (PyFunc.plain (PlainFunc.mk
          (fun _ _ _ => (Except.error "not implemented" : Except String Nat))
          "append" none))).call [] []))
      = OpResult.notImplemented :=
  ⟨rfl, rfl, rfl⟩

/-- C9 as amended: a class that defines its own shift operator and has not
been enabled resolves a shift expression with a deferred operation on the
right entirely through its own operator, provided that operator returns a
proper value — not the NotImplemented sentinel — on that operand: the result
is then what the class's own implementation returns, whatever deferred
operation stands on the right, so the deferred operation's apply-to-subject
operation plays no part.  When the operator declines with the sentinel,
Python's protocol falls back to the deferred operation's reflected hook, so
enablement is not required for such classes. -/
theorem c9_unpatched_class_resolves_itself {V ρ τ : Type} [DecidableEq τ]
    (tyOf : V → τ) (f : V → RVal V ρ τ → OpResult ρ) (p : Bool)
    (d : Option String) (o : Option (Method V ρ τ)) (self : V)
    (pv : PipeVerb V ρ τ) (r : ρ)
    (h : f self (RVal.verb pv) = OpResult.value r) :
    pyRshift tyOf (Cls.mk (some (Method.mk (RshiftImpl.orig f) p d)) o) self
        (RVal.verb pv)
      = some r := by
  simp [pyRshift, callMethod, h]

/-- C9 witness: a Tester-like class whose operator claims every right side
yields its own result on a verb, not the verb's. -/
theorem c9_witness :
    pyRshift (fun _ : Nat => (0 : Nat))
        (Cls.mk (some (Method.mk
          (RshiftImpl.orig (fun _ (_ : RVal Nat String Nat) =>
            OpResult.value "TESTER"))
          false (some "ORIG RSHIFT"))) none)
        1 (RVal.verb ((pipeverb (PyFunc.plain (PlainFunc.mk
            (fun _ _ _ => "VERB") "test_verb" none))).call [] []))
      = some "TESTER" :=
  c9_unpatched_class_resolves_itself (fun _ : Nat => (0 : Nat))
    (fun _ _ => OpResult.value "TESTER") false (some "ORIG RSHIFT") none 1
    ((pipeverb (PyFunc.plain (PlainFunc.mk (fun _ _ _ => "VERB")
      "test_verb" none))).call [] []) "TESTER" rfl

/-- C10: a class that defines no shift operator is left completely unchanged
by make_pipesource — no wrapper installed, no marker set, no saved-original
attribute created — and a shift expression on one of its instances with a
deferred operation on the right still applies the deferred operation to the
instance through the operand's reflected hook. -/
theorem c10_no_rshift_class_untouched {V ρ τ : Type} [DecidableEq τ]
    (tyOf : V → τ) (o : Option (Method V ρ τ)) (self : V)
    (pv : PipeVerb V ρ τ) :
    make_pipesource (Cls.mk none o) = Cls.mk none o ∧
    pyRshift tyOf (Cls.mk none o) self (RVal.verb pv)
      = some (pv.rrshift tyOf self) :=
  ⟨rfl, rfl⟩

/-- C10 witness: a concrete operator-less class pipes through the reflected
hook and is untouched by enablement. -/
theorem c10_witness :
    make_pipesource (Cls.mk (V := Nat) (ρ := Nat) (τ := Nat) none none)
      = Cls.mk none none ∧
    pyRshift (fun _ : Nat => (0 : Nat)) (Cls.mk none none) 3
        (RVal.verb ((pipeverb (PyFunc.plain (PlainFunc.mk
            (fun s _ _ => s + 39) "add39" none))).call [] []))
      = some 42 :=
  c10_no_rshift_class_untouched (fun _ : Nat => (0 : Nat)) none 3
    ((pipeverb (PyFunc.plain (PlainFunc.mk (fun s _ _ => s + 39)
      "add39" none))).call [] [])

end PyDataPipes
